import Mathlib

/-!
Verification of the Wikipedia research-assistant agent
(`src/core/langgraph_agent.py`, `src/core/rag.py`, `src/app_terminal.py`).

Shallow embedding conventions:
* External collaborators (the LLM provider, the Wikipedia lookup service, the
  embedding/vector index, the LangGraph executor) are modelled as function
  parameters; a call that can raise a Python exception is modelled as a value
  of `Except String α`, the `String` carrying `str(e)`.
* Python strings are Lean `String`; `str.startswith`, `str.lower`, `str.strip`
  are embedded character-wise (`pyStartswith`, `pyLower`, `pyStrip`).
* `os.getenv(name, default)` is embedded as `getenv : Option String → String →
  String` over an explicit environment record `Env`.
-/

set_option maxRecDepth 8192

namespace WikiSpec

/-- Python `s.startswith(p)`: character-wise prefix test. -/
def pyStartswith (s p : String) : Bool :=
  p.toList.isPrefixOf s.toList

/-- Python `s.lower()` (ASCII case folding, which covers every string the
program compares). -/
def pyLower (s : String) : String :=
  ⟨s.toList.map Char.toLower⟩

/-- Python `s.strip()`: drop leading and trailing whitespace. -/
def pyStrip (s : String) : String :=
  ⟨((s.toList.dropWhile Char.isWhitespace).reverse.dropWhile Char.isWhitespace).reverse⟩

/-- The process environment as read by `langgraph_agent.py` (lines 28-49):
each configuration variable is present (`some value`) or absent (`none`). -/
structure Env where
  openai_api_key : Option String
  anthropic_api_key : Option String
  google_api_key : Option String
  llm : Option String
  use_rag : Option String
  system_prompt : Option String
deriving Repr, DecidableEq

/-- `os.getenv(name, default)`. -/
def getenv (v : Option String) (d : String) : String :=
  v.getD d

/-- Module global `OPENAI_API_KEY = os.getenv("OPENAI_API_KEY", "")` (line 28). -/
def OPENAI_API_KEY (env : Env) : String := getenv env.openai_api_key ""

/-- Module global `ANTHROPIC_API_KEY = os.getenv("ANTHROPIC_API_KEY", "")` (line 29). -/
def ANTHROPIC_API_KEY (env : Env) : String := getenv env.anthropic_api_key ""

/-- Module global `GOOGLE_API_KEY = os.getenv("GOOGLE_API_KEY", "")` (line 30). -/
def GOOGLE_API_KEY (env : Env) : String := getenv env.google_api_key ""

/-- Module global `LLM = os.getenv("LLM", "claude-3-5-sonnet-latest")` (line 32). -/
def LLM (env : Env) : String := getenv env.llm "claude-3-5-sonnet-latest"

/-- Module global `USE_RAG = os.getenv("USE_RAG", "false").lower() == "true"` (line 33). -/
def USE_RAG (env : Env) : Bool := pyLower (getenv env.use_rag "false") == "true"

/-- The built-in default system prompt used when `USE_RAG` is false
(`langgraph_agent.py` lines 35-42). -/
def defaultSearchPrompt : String :=
  "You are a helpful research assistant that specializes in searching Wikipedia for information.\nYou aim to provide accurate, well-researched answers based on Wikipedia content.\nWhen asked a question, you should break it down into multiple search queries if needed to gather comprehensive information.\nFor complex topics, you should make multiple Wikipedia searches to cross-reference and combine information from different articles.\nIf you\x27re unsure about something or can\x27t find information on Wikipedia, you\x27ll be honest about it.\nYou\x27ll maintain a professional and informative tone while being engaging and clear in your responses.\nAlways give sources of the information you provide, which pages you got the information from, and links to the pages.\nRemember to synthesize information from multiple sources when appropriate to provide the most complete and accurate answer.\n"

/-- The built-in default system prompt used when `USE_RAG` is true
(`langgraph_agent.py` lines 43-49). -/
def defaultRagPrompt : String :=
  "You are a helpful research assistant that specializes in searching Wikipedia for information.\nYou aim to provide accurate, well-researched answers based on Wikipedia content.\nWhen asked a question, you will search Wikipedia to find relevant information.\nYou have access to a RAG tool that allows you to search through Wikipedia content efficiently.\nIf you\x27re unsure about something or can\x27t find information on Wikipedia, you\x27ll be honest about it.\nYou\x27ll maintain a professional and informative tone while being engaging and clear in your responses.\n"

/-- Module global `SYSTEM_PROMPT = os.getenv("SYSTEM_PROMPT", defaultA) if not
USE_RAG else os.getenv("SYSTEM_PROMPT", defaultB)` (lines 35-49). -/
def SYSTEM_PROMPT (env : Env) : String :=
  if ¬ (USE_RAG env = true) then getenv env.system_prompt defaultSearchPrompt
  else getenv env.system_prompt defaultRagPrompt

/-- The vendor-specific chat-model handle built in `WikipediaAgent.__init__`
(lines 101-118). The spec treats the inference service as an opaque
text-completion API keyed by model name and API key, so obtaining a handle
records the vendor, the model name and the credential and performs no
validation. -/
inductive ModelBinding where
  | ChatAnthropic (model_name : String) (api_key : String)
  | ChatGoogleGenerativeAI (model : String) (api_key : String)
  | ChatOpenAI (model : String) (api_key : String)
deriving Repr, DecidableEq

/-- The two retrieval-tool variants registered on the agent, by their tool
names: the `@tool wikipedia_search` closure (lines 78-93) or the
`wikipedia_rag` retriever tool from `rag.py` (line 74). -/
inductive RetrievalTool where
  | wikipedia_search
  | wikipedia_rag
deriving Repr, DecidableEq

/-- The state a `WikipediaAgent` instance holds after `__init__`: its tool
list, its model binding and the system prompt wired into the executor. All
fields are set once at construction and never reassigned. -/
structure WikipediaAgentState where
  tools : List RetrievalTool
  model : ModelBinding
  system_prompt : String
deriving Repr, DecidableEq

/-- `WikipediaAgent.__init__` (lines 66-129): picks the tool variant from
`USE_RAG`, dispatches the model binding on the `LLM` name prefix
(`claude` → Anthropic, `gemini` → Google, anything else → OpenAI), and stores
the module-level system prompt. No configuration value is validated: missing
credentials already defaulted to `""` at module load prior to this point. -/
def WikipediaAgent.init (env : Env) : WikipediaAgentState :=
  let tools := if USE_RAG env then [RetrievalTool.wikipedia_rag]
               else [RetrievalTool.wikipedia_search]
  let model :=
    if pyStartswith (LLM env) "claude" then
      ModelBinding.ChatAnthropic (LLM env) (ANTHROPIC_API_KEY env)
    else if pyStartswith (LLM env) "gemini" then
      ModelBinding.ChatGoogleGenerativeAI (LLM env) (GOOGLE_API_KEY env)
    else
      ModelBinding.ChatOpenAI (LLM env) (OPENAI_API_KEY env)
  { tools := tools, model := model, system_prompt := SYSTEM_PROMPT env }

/-- The environment with every configuration variable absent; `getenv`
defaults then apply everywhere. -/
def envEmpty : Env :=
  { openai_api_key := none, anthropic_api_key := none, google_api_key := none,
    llm := none, use_rag := none, system_prompt := none }

/-- `WikipediaAgent.query` (lines 131-175). The body of the `try` block -
building the executor inputs, streaming the agent loop and extracting the
last message content - is the opaque LangGraph collaborator `exec`, a
function of the agent state, the input text and the thread id; it returns the
final message content or the text of a raised exception (any `Exception`
escaping model consultation or tool execution). The `except` clause converts
a raised exception into the string returned to the caller. -/
def WikipediaAgent.query (agent : WikipediaAgentState)
    (exec : WikipediaAgentState → String → String → Except String String)
    (input_text : String) (thread_id : String) : String :=
  match exec agent input_text thread_id with
  | Except.ok content => content
  | Except.error e => "An error occurred: " ++ e

/-- The loop of `wikipedia_search` (lines 87-90): run the external lookup
(`WikipediaQueryRun.run`) once per query, in input order, collecting the
results; a lookup that raises aborts the loop with that exception. Also
returns the trace of queries actually sent to the external service. -/
def runLookups (lookup : String → Except String String) :
    List String → List String × Except String (List String)
  | [] => ([], Except.ok [])
  | q :: qs =>
    match lookup q with
    | Except.error e => ([q], Except.error e)
    | Except.ok r =>
      match runLookups lookup qs with
      | (tr, Except.error e) => (q :: tr, Except.error e)
      | (tr, Except.ok rs) => (q :: tr, Except.ok (r :: rs))

/-- The `@tool wikipedia_search` closure (lines 78-91): runs the lookups and
joins the collected results with `"\n\n"`. First component: the trace of
queries sent to the external service; second: the returned string or the
exception that escaped the tool call. -/
def wikipedia_search (lookup : String → Except String String)
    (queries : List String) : List String × Except String String :=
  match runLookups lookup queries with
  | (tr, Except.error e) => (tr, Except.error e)
  | (tr, Except.ok rs) => (tr, Except.ok (String.intercalate "\n\n" rs))

/-- The retriever tool produced by `create_rag_tool` in `rag.py` (lines
14-50): its registered name and description, the chunks stored in the FAISS
index, and the tool function. -/
structure RagTool where
  name : String
  description : String
  entries : List String
  invoke : String → String

/-- The library call `FAISS.from_documents(texts, embeddings)` at `rag.py`
line 40: the build embeds the chunks and reads the index dimension from the
first embedding (`len(embeddings[0])` inside `FAISS.__from`), so an empty
chunk list raises `IndexError: list index out of range`; otherwise the
chunks are stored as the index entries. -/
def faissFromDocuments (texts : List String) : Except String (List String) :=
  if texts.isEmpty then Except.error "list index out of range"
  else Except.ok texts

/-- `create_rag_tool` (`rag.py` lines 14-50). Parameters stand for the
external collaborators the spec declares out of scope: `splitOne` is the
semantic chunker applied to the text of one document (`SemanticChunker` splits
each input text independently, so `create_documents` is its concatenation
over the documents); `retriever` is the nearest-neighbor search of the FAISS
index built over the stored chunks, returning the best-matching stored chunks
for a query. `fileContents` is the text of each `rag_data/*.txt` file, in
glob order (`TextLoader.load` yields one document per file). The
`FAISS.from_documents` call can raise (see `faissFromDocuments`); a raised
exception propagates out of `create_rag_tool` uncaught. The tool function is
the behavior of `create_retriever_tool`: the page contents of the retrieved
documents joined with the default separator `"\n\n"`. -/
def create_rag_tool (splitOne : String → List String)
    (retriever : List String → String → List String)
    (fileContents : List String) : Except String RagTool :=
  let documents := fileContents
  let texts := (documents.map splitOne).flatten
  match faissFromDocuments texts with
  | Except.error e => Except.error e
  | Except.ok db =>
    Except.ok
      { name := "wikipedia_rag",
        description := "Searches through the knowledge base for relevant information.",
        entries := db,
        invoke := fun q => String.intercalate "\n\n" (retriever db q) }

/-- What one iteration of the terminal main loop does with the line it read
(`app_terminal.py` lines 41-66). -/
inductive TermAction where
  | exitProcess
  | clearAndWelcome
  | skipLine
  | forwarded
deriving Repr, DecidableEq

/-- The observable outcome of one iteration of the terminal main loop:
the control action taken, the argument passed to `agent.query` if it was
called, and the lines the loop body itself printed (beyond the input
prompt). -/
structure TermStep where
  action : TermAction
  queried : Option String
  printed : List String
deriving Repr, DecidableEq

/-- The thinking indicator printed before the agent is consulted
(`app_terminal.py` line 59). -/
def searchingIndicator : String := "\n\x1b[90m🤔 Searching Wikipedia...\x1b[0m"

/-- The goodbye line printed on `exit`/`quit` (`app_terminal.py` line 47). -/
def goodbyeLine : String := "\nThank you for using Wikipedia Research Assistant. Goodbye! 👋\n"

/-- One iteration of the terminal main loop (`app_terminal.py` lines 41-66):
the raw line is stripped; the stripped value, lowercased, is compared against
`exit`/`quit` (terminate) and `clear` (clear screen and reprint welcome); an
empty stripped value re-reads; otherwise the stripped value is passed to
`agent.query`. The block that would print the response (lines 63-66) is
commented out in the source, so the response string never reaches `printed`.
`queryFn` is `agent.query` specialized to the default thread id. -/
def terminalIteration (queryFn : String → String) (raw : String) : TermStep :=
  let user_input := pyStrip raw
  if pyLower user_input == "exit" || pyLower user_input == "quit" then
    { action := TermAction.exitProcess, queried := none, printed := [goodbyeLine] }
  else if pyLower user_input == "clear" then
    { action := TermAction.clearAndWelcome, queried := none, printed := [] }
  else if user_input == "" then
    { action := TermAction.skipLine, queried := none, printed := [] }
  else
    let _response := queryFn user_input
    { action := TermAction.forwarded, queried := some user_input,
      printed := [searchingIndicator] }

/-! Theorems -/

/-- Helper: a string with the error prefix prepended is never empty. -/
theorem error_string_ne_empty (e : String) : "An error occurred: " ++ e ≠ "" := by
  intro h
  have hd : ("An error occurred: " ++ e).data = "".data := congrArg String.data h
  rw [String.data_append] at hd
  rcases List.append_eq_nil.mp hd with ⟨h1, _⟩
  exact absurd h1 (by decide)

/-- C1: for every input text and thread id, `query` returns a string and
never raises: whatever the agent executor does - returning a final message
content or raising an exception during model consultation or tool execution -
`query` yields a string, and a raised exception is caught at the `query`
boundary and converted into the textual error message that is returned. -/
theorem query_always_returns (agent : WikipediaAgentState)
    (exec : WikipediaAgentState → String → String → Except String String)
    (input_text thread_id : String) :
    (∃ c, exec agent input_text thread_id = Except.ok c ∧
       WikipediaAgent.query agent exec input_text thread_id = c) ∨
    (∃ e, exec agent input_text thread_id = Except.error e ∧
       WikipediaAgent.query agent exec input_text thread_id = "An error occurred: " ++ e) := by
  cases h : exec agent input_text thread_id with
  | ok c => exact Or.inl ⟨c, rfl, by simp [WikipediaAgent.query, h]⟩
  | error e => exact Or.inr ⟨e, rfl, by simp [WikipediaAgent.query, h]⟩

/-- C2 counterexample: the claim "query returns a non-empty string for every
non-empty input" fails on the code: when the executor succeeds with an empty
final message content, `query` returns that content unchanged, so the
non-empty input `"hi"` yields the empty string. -/
theorem query_nonempty_cex :
    ("hi" ≠ "") ∧
    WikipediaAgent.query (WikipediaAgent.init envEmpty)
      (fun _ _ _ => Except.ok "") "hi" "abc123" = "" :=
  ⟨by decide, rfl⟩

/-- C2 amended: for every input, `query` returns a string and never raises;
on the error path the result is the error message, which is never empty; on
the success path the result equals the final message content produced by the
executor (and hence is non-empty exactly when that content is). -/
theorem query_nonempty_amended (agent : WikipediaAgentState)
    (exec : WikipediaAgentState → String → String → Except String String)
    (input_text thread_id : String) :
    (∀ e, exec agent input_text thread_id = Except.error e →
       WikipediaAgent.query agent exec input_text thread_id = "An error occurred: " ++ e ∧
       WikipediaAgent.query agent exec input_text thread_id ≠ "") ∧
    (∀ c, exec agent input_text thread_id = Except.ok c →
       WikipediaAgent.query agent exec input_text thread_id = c) := by
  constructor
  · intro e he
    have hq : WikipediaAgent.query agent exec input_text thread_id = "An error occurred: " ++ e := by
      simp [WikipediaAgent.query, he]
    exact ⟨hq, hq ▸ error_string_ne_empty e⟩
  · intro c hc
    simp [WikipediaAgent.query, hc]

/-- C2 amended, witness: at a concrete failing executor, `query` returns the
non-empty error message; at a concrete succeeding executor it returns the
content. -/
theorem query_nonempty_amended_witness :
    (WikipediaAgent.query (WikipediaAgent.init envEmpty)
       (fun _ _ _ => Except.error "timeout") "hi" "abc123" = "An error occurred: timeout" ∧
     WikipediaAgent.query (WikipediaAgent.init envEmpty)
       (fun _ _ _ => Except.error "timeout") "hi" "abc123" ≠ "") ∧
    WikipediaAgent.query (WikipediaAgent.init envEmpty)
      (fun _ _ _ => Except.ok "Paris") "hi" "abc123" = "Paris" := by
  constructor
  · exact (query_nonempty_amended (WikipediaAgent.init envEmpty)
      (fun _ _ _ => Except.error "timeout") "hi" "abc123").1 "timeout" rfl
  · exact (query_nonempty_amended (WikipediaAgent.init envEmpty)
      (fun _ _ _ => Except.ok "Paris") "hi" "abc123").2 "Paris" rfl

/-- C10: whenever `query` takes its error path - the executor raised with
message `e` - the returned string is exactly the fixed text
`"An error occurred: "` followed by the exception text. -/
theorem query_error_message (agent : WikipediaAgentState)
    (exec : WikipediaAgentState → String → String → Except String String)
    (input_text thread_id e : String)
    (h : exec agent input_text thread_id = Except.error e) :
    WikipediaAgent.query agent exec input_text thread_id = "An error occurred: " ++ e := by
  simp [WikipediaAgent.query, h]

/-- C10 witness: a concrete raised exception is returned with the fixed
error text prepended. -/
theorem query_error_message_witness :
    WikipediaAgent.query (WikipediaAgent.init envEmpty)
      (fun _ _ _ => Except.error "boom") "hi" "t1" = "An error occurred: boom" :=
  query_error_message (WikipediaAgent.init envEmpty)
    (fun _ _ _ => Except.error "boom") "hi" "t1" "boom" rfl

/-- Helper: when the lookup succeeds on every query, the loop sends exactly
the input queries, in order, and collects their results in order. -/
theorem runLookups_all_ok (lookup : String → Except String String)
    (f : String → String) :
    ∀ qs : List String, (∀ q ∈ qs, lookup q = Except.ok (f q)) →
      runLookups lookup qs = (qs, Except.ok (qs.map f)) := by
  intro qs
  induction qs with
  | nil => intro _; rfl
  | cons q qs ih =>
    intro h
    have hq : lookup q = Except.ok (f q) := h q (List.mem_cons_self q qs)
    have hrest := ih (fun p hp => h p (List.mem_cons_of_mem q hp))
    simp [runLookups, hq, hrest]

/-- C3: for every sequence of queries whose lookups all succeed,
`wikipedia_search` sends exactly one external lookup per query, in input
order (the trace equals the query list), and returns the lookup results
joined with a blank line in input order; in particular the empty sequence
yields the empty string with no lookup and no error. -/
theorem wikipedia_search_per_query (lookup : String → Except String String)
    (f : String → String) (queries : List String)
    (h : ∀ q ∈ queries, lookup q = Except.ok (f q)) :
    wikipedia_search lookup queries
      = (queries, Except.ok (String.intercalate "\n\n" (queries.map f))) := by
  simp [wikipedia_search, runLookups_all_ok lookup f queries h]

/-- C3 witness: two concrete queries produce exactly two lookups in order and
the blank-line joined result; the empty sequence produces no lookup and the
empty string. -/
theorem wikipedia_search_per_query_witness :
    wikipedia_search (fun q => Except.ok (q ++ " article")) ["alpha", "beta"]
      = (["alpha", "beta"], Except.ok "alpha article\n\nbeta article") ∧
    wikipedia_search (fun q => Except.ok (q ++ " article")) []
      = ([], Except.ok "") := by
  constructor
  · exact wikipedia_search_per_query (fun q => Except.ok (q ++ " article"))
      (fun q => q ++ " article") ["alpha", "beta"] (fun q _ => rfl)
  · exact wikipedia_search_per_query (fun q => Except.ok (q ++ " article"))
      (fun q => q ++ " article") [] (fun q _ => rfl)

/-- Helper: a failing lookup aborts the loop: the queries before the failing
one are looked up, the failing one is looked up, the rest are never sent, and
the error is the result of the loop. -/
theorem runLookups_error (lookup : String → Except String String)
    (q e : String) (hq : lookup q = Except.error e) :
    ∀ pre post : List String, (∀ p ∈ pre, ∃ r, lookup p = Except.ok r) →
      runLookups lookup (pre ++ q :: post) = (pre ++ [q], Except.error e) := by
  intro pre
  induction pre with
  | nil => intro post _; simp [runLookups, hq]
  | cons p ps ih =>
    intro post h
    obtain ⟨r, hr⟩ := h p (List.mem_cons_self p ps)
    have hrest := ih post (fun x hx => h x (List.mem_cons_of_mem p hx))
    simp [runLookups, hr, hrest]

/-- C4: if the lookup raises on one query (after succeeding on the queries
before it), the whole `wikipedia_search` call fails with that error: no
string is returned, no partial result survives, and the queries after the
failing one are never sent to the external service. -/
theorem wikipedia_search_fail_fast (lookup : String → Except String String)
    (pre post : List String) (q e : String)
    (hpre : ∀ p ∈ pre, ∃ r, lookup p = Except.ok r)
    (hq : lookup q = Except.error e) :
    wikipedia_search lookup (pre ++ q :: post) = (pre ++ [q], Except.error e) := by
  simp [wikipedia_search, runLookups_error lookup q e hq pre post hpre]

/-- C4 witness: with a lookup that raises on `"bad"`, the call on
`["a", "bad", "c"]` fails with that error, `"c"` is never looked up, and the
successful result for `"a"` is discarded. -/
theorem wikipedia_search_fail_fast_witness :
    wikipedia_search
      (fun q => if q == "bad" then Except.error "boom" else Except.ok q)
      ["a", "bad", "c"] = (["a", "bad"], Except.error "boom") := by
  have h := wikipedia_search_fail_fast
    (fun q => if q == "bad" then Except.error "boom" else Except.ok q)
    ["a"] ["c"] "bad" "boom"
    (by intro p hp
        have hp1 : p = "a" := by simpa using hp
        subst hp1
        exact ⟨"a", rfl⟩)
    rfl
  simpa using h

/-- C5: the claim says building the RAG tool over an empty corpus directory
must not crash index construction and must yield a zero-entry index whose
tool calls return the empty string; the code instead crashes at that exact
input: with no corpus files there are zero documents and zero chunks, and the
`FAISS.from_documents` call raises `IndexError: list index out of range`
(the index dimension is read from the first embedding of an empty list), so
`create_rag_tool` propagates the exception instead of returning a tool -
whatever the chunker and the retriever are. -/
theorem rag_empty_corpus_crashes (splitOne : String → List String)
    (retriever : List String → String → List String) :
    create_rag_tool splitOne retriever []
      = Except.error "list index out of range" := rfl

/-- C6: with every configuration variable absent - no credential for any
vendor, no model name - `WikipediaAgent.init` does not fail: it returns an
agent whose model binding holds the defaulted model name and the empty-string
credential that `os.getenv(..., "")` substituted for the missing key; the
misconfiguration then surfaces only when the first `query` call fails inside
the executor, which is caught and converted to an error string. Construction
performs no validation, contradicting the claim that configuration errors
fail fast at construction. -/
theorem construction_never_fails_on_misconfig :
    WikipediaAgent.init envEmpty =
      { tools := [RetrievalTool.wikipedia_search],
        model := ModelBinding.ChatAnthropic "claude-3-5-sonnet-latest" "",
        system_prompt := defaultSearchPrompt } ∧
    (∀ e, WikipediaAgent.query (WikipediaAgent.init envEmpty)
        (fun _ _ _ => Except.error e) "What is Lean" "abc123"
        = "An error occurred: " ++ e) := by
  exact ⟨rfl, fun e => rfl⟩

/-- Helper: no string starts with both `"gemini"` and `"claude"`. -/
theorem not_claude_of_gemini (s : String) (h : pyStartswith s "gemini" = true) :
    pyStartswith s "claude" = false := by
  cases hcc : pyStartswith s "claude" with
  | false => rfl
  | true =>
    have hg : "gemini".toList <+: s.toList := List.isPrefixOf_iff_prefix.mp h
    have hcl : "claude".toList <+: s.toList := List.isPrefixOf_iff_prefix.mp hcc
    rcases List.prefix_or_prefix_of_prefix hg hcl with hp | hp
    · exact absurd (hp.eq_of_length (by decide)) (by decide)
    · exact absurd (hp.eq_of_length (by decide)) (by decide)

/-- C7: the model binding is selected at construction by matching the
configured model name against vendor prefixes: a name starting with
`"claude"` routes to the Anthropic binding, a name starting with `"gemini"`
routes to the Google binding, and every name matching neither prefix routes
to the default OpenAI binding; each binding carries the configured name and
the credential of that vendor. The binding is a field of the returned immutable
agent state and `query` never produces a new agent state, so it is fixed for
the lifetime of the agent. -/
theorem model_binding_by_name (env : Env) :
    (pyStartswith (LLM env) "claude" = true →
      (WikipediaAgent.init env).model
        = ModelBinding.ChatAnthropic (LLM env) (ANTHROPIC_API_KEY env)) ∧
    (pyStartswith (LLM env) "gemini" = true →
      (WikipediaAgent.init env).model
        = ModelBinding.ChatGoogleGenerativeAI (LLM env) (GOOGLE_API_KEY env)) ∧
    (pyStartswith (LLM env) "claude" = false →
      pyStartswith (LLM env) "gemini" = false →
      (WikipediaAgent.init env).model
        = ModelBinding.ChatOpenAI (LLM env) (OPENAI_API_KEY env)) := by
  refine ⟨?_, ?_, ?_⟩
  · intro h
    simp [WikipediaAgent.init, h]
  · intro h
    simp [WikipediaAgent.init, h, not_claude_of_gemini (LLM env) h]
  · intro h1 h2
    simp [WikipediaAgent.init, h1, h2]

/-- C7 witness: concrete names for each of the three routes. -/
theorem model_binding_by_name_witness :
    (WikipediaAgent.init { envEmpty with llm := some "claude-3-5-sonnet-latest" }).model
      = ModelBinding.ChatAnthropic "claude-3-5-sonnet-latest" "" ∧
    (WikipediaAgent.init { envEmpty with llm := some "gemini-1.5-pro" }).model
      = ModelBinding.ChatGoogleGenerativeAI "gemini-1.5-pro" "" ∧
    (WikipediaAgent.init { envEmpty with llm := some "gpt-4o" }).model
      = ModelBinding.ChatOpenAI "gpt-4o" "" := by
  refine ⟨?_, ?_, ?_⟩
  · exact (model_binding_by_name _).1 (by decide)
  · exact (model_binding_by_name _).2.1 (by decide)
  · exact (model_binding_by_name _).2.2 (by decide) (by decide)

/-- C8: with the RAG flag off (and no explicit prompt override), exactly the
direct-search tool is registered and the search-tuned default prompt is used;
flipping the flag to true changes exactly those two things - the registered
tool variant becomes the RAG tool and the default prompt becomes the
RAG-tuned text, which differs from the search-tuned text - while the model
binding is unchanged; and for every configuration the agent carries exactly
one retrieval tool for its whole lifetime. -/
theorem use_rag_switching (env : Env)
    (hfalse : USE_RAG env = false) (hp : env.system_prompt = none) :
    (WikipediaAgent.init env).tools = [RetrievalTool.wikipedia_search] ∧
    (WikipediaAgent.init { env with use_rag := some "true" }).tools
      = [RetrievalTool.wikipedia_rag] ∧
    (WikipediaAgent.init env).system_prompt = defaultSearchPrompt ∧
    (WikipediaAgent.init { env with use_rag := some "true" }).system_prompt
      = defaultRagPrompt ∧
    (WikipediaAgent.init { env with use_rag := some "true" }).model
      = (WikipediaAgent.init env).model ∧
    defaultRagPrompt ≠ defaultSearchPrompt ∧
    (∀ e : Env, (WikipediaAgent.init e).tools.length = 1) := by
  have htrue : USE_RAG { env with use_rag := some "true" } = true := rfl
  refine ⟨?_, ?_, ?_, ?_, ?_, ?_, ?_⟩
  · simp [WikipediaAgent.init, hfalse]
  · simp [WikipediaAgent.init, htrue]
  · simp [WikipediaAgent.init, SYSTEM_PROMPT, hfalse, hp, getenv]
  · have h4 : (WikipediaAgent.init { env with use_rag := some "true" }).system_prompt
        = getenv env.system_prompt defaultRagPrompt := rfl
    rw [h4, hp]
    rfl
  · rfl
  · decide
  · intro e
    cases h : USE_RAG e <;> simp [WikipediaAgent.init, h]

/-- C8 witness: the switch evaluated at the empty environment. -/
theorem use_rag_switching_witness :
    (WikipediaAgent.init envEmpty).tools = [RetrievalTool.wikipedia_search] ∧
    (WikipediaAgent.init { envEmpty with use_rag := some "true" }).tools
      = [RetrievalTool.wikipedia_rag] ∧
    (WikipediaAgent.init envEmpty).system_prompt = defaultSearchPrompt ∧
    (WikipediaAgent.init { envEmpty with use_rag := some "true" }).system_prompt
      = defaultRagPrompt ∧
    (WikipediaAgent.init { envEmpty with use_rag := some "true" }).model
      = (WikipediaAgent.init envEmpty).model ∧
    defaultRagPrompt ≠ defaultSearchPrompt ∧
    (∀ e : Env, (WikipediaAgent.init e).tools.length = 1) :=
  use_rag_switching envEmpty (by decide) rfl

/-- C9 counterexample: the claim "the terminal forwards the text verbatim to
query and prints the returned string" fails on the code at the input line
`"  hello  "`: the loop strips the line and forwards `"hello"`, not the line
it read, and the returned string is never among the lines the loop prints
(the response-printing block is commented out). -/
theorem terminal_not_verbatim_cex :
    (terminalIteration (fun _ => "THE ANSWER") "  hello  ").queried = some "hello" ∧
    (terminalIteration (fun _ => "THE ANSWER") "  hello  ").queried ≠ some "  hello  " ∧
    "THE ANSWER" ∉ (terminalIteration (fun _ => "THE ANSWER") "  hello  ").printed := by
  refine ⟨rfl, by decide, by decide⟩

/-- C9 amended: for every line read, the terminal strips surrounding
whitespace; if the stripped value lowercased is `exit` or `quit` it
terminates the process, if it is `clear` it only resets the display, if it is
empty it reads the next line, and otherwise it forwards the stripped text to
`query`; the loop body prints only the fixed searching indicator, not the
returned string. -/
theorem terminal_step_amended (queryFn : String → String) (raw : String) :
    ((pyLower (pyStrip raw) = "exit" ∨ pyLower (pyStrip raw) = "quit") →
      terminalIteration queryFn raw
        = { action := TermAction.exitProcess, queried := none,
            printed := [goodbyeLine] }) ∧
    (pyLower (pyStrip raw) ≠ "exit" → pyLower (pyStrip raw) ≠ "quit" →
      pyLower (pyStrip raw) = "clear" →
      terminalIteration queryFn raw
        = { action := TermAction.clearAndWelcome, queried := none, printed := [] }) ∧
    (pyLower (pyStrip raw) ≠ "exit" → pyLower (pyStrip raw) ≠ "quit" →
      pyLower (pyStrip raw) ≠ "clear" → pyStrip raw = "" →
      terminalIteration queryFn raw
        = { action := TermAction.skipLine, queried := none, printed := [] }) ∧
    (pyLower (pyStrip raw) ≠ "exit" → pyLower (pyStrip raw) ≠ "quit" →
      pyLower (pyStrip raw) ≠ "clear" → pyStrip raw ≠ "" →
      terminalIteration queryFn raw
        = { action := TermAction.forwarded, queried := some (pyStrip raw),
            printed := [searchingIndicator] }) := by
  refine ⟨?_, ?_, ?_, ?_⟩
  · intro h
    have hb : (pyLower (pyStrip raw) == "exit" || pyLower (pyStrip raw) == "quit") = true := by
      rcases h with h | h <;> simp [h]
    simp [terminalIteration, hb]
  · intro h1 h2 h3
    have hb : (pyLower (pyStrip raw) == "exit" || pyLower (pyStrip raw) == "quit") = false := by
      simp [h1, h2]
    have hc : (pyLower (pyStrip raw) == "clear") = true := by simp [h3]
    simp [terminalIteration, hb, hc]
  · intro h1 h2 h3 h4
    have hb : (pyLower (pyStrip raw) == "exit" || pyLower (pyStrip raw) == "quit") = false := by
      simp [h1, h2]
    have hc : (pyLower (pyStrip raw) == "clear") = false := by simp [h3]
    have he : (pyStrip raw == "") = true := by simp [h4]
    simp [terminalIteration, hb, hc, he]
  · intro h1 h2 h3 h4
    have hb : (pyLower (pyStrip raw) == "exit" || pyLower (pyStrip raw) == "quit") = false := by
      simp [h1, h2]
    have hc : (pyLower (pyStrip raw) == "clear") = false := by simp [h3]
    have he : (pyStrip raw == "") = false := by simp [h4]
    simp [terminalIteration, hb, hc, he]

/-- C9 amended, witness: a padded ordinary line is forwarded stripped with
only the indicator printed, and a padded upper-case `EXIT` terminates. -/
theorem terminal_step_amended_witness :
    terminalIteration (fun _ => "ok") " tell me about lean "
      = { action := TermAction.forwarded, queried := some "tell me about lean",
          printed := [searchingIndicator] } ∧
    terminalIteration (fun _ => "ok") " EXIT "
      = { action := TermAction.exitProcess, queried := none,
          printed := [goodbyeLine] } := by
  constructor
  · exact (terminal_step_amended (fun _ => "ok") " tell me about lean ").2.2.2
      (by decide) (by decide) (by decide) (by decide)
  · exact (terminal_step_amended (fun _ => "ok") " EXIT ").1 (Or.inl (by decide))

end WikiSpec
